import Mathlib

/-!
Shallow embedding of the `ts-lib-result` library (src/index.ts): two
two-variant containers, `Option` (classes `OptionSome` / `OptionNone`) and
`Result` (classes `ResultOk` / `ResultErr`), with their combinator surface.

Modelling choices:
* JavaScript runtime values are modelled by `JSVal`.  Primitives carry their
  payload and are compared by value, exactly as `===` does; an object carries
  a reference identity `id` together with an abstract structural fingerprint
  `shape`, because `===` on objects compares references only while two
  distinct objects may still be structurally equal.  `undefined` models the
  JavaScript value `undefined` (the result of reading an absent property).
  `JSVal` is the NaN-free fragment of the runtime values (numbers are
  integers); `JSValFull` is the full domain with the IEEE-754 NaN added,
  the one runtime value on which `===` is not reflexive (`NaN === NaN` is
  false).  Statements whose truth is sensitive to NaN are settled over
  `JSValFull` and its containers `TSOptionFull` / `TSResultFull`;
  statements that are insensitive to NaN, or whose equal-payload guard
  already excludes it under `===`, are stated over the fragment.
* Methods that can `throw` (`expect`, `unwrap`, `expect_err`) are embedded in
  `Except String`, the error being the message of the thrown `Error`.
* Combinators that receive a caller-supplied closure are embedded
  monad-generically (`and_thenM`, `or_elseM`, `mapM`, `map_errM`): a
  JavaScript closure may have arbitrary effects, so the mapper lives in an
  arbitrary monad `m`.  Instantiating `m := StateM σ` makes "the mapper is
  never invoked" observable (no state change); instantiating
  `m := Except String` makes "the combinator never throws" observable.
* The containers are monomorphic in `JSVal`: TypeScript generics are erased
  at runtime, and every claim quantifies over runtime values.
-/

/-- JavaScript runtime values without NaN: `undefined`, primitive numbers /
strings / booleans, and objects.  An object has a reference identity `id`
(what `===` compares) and an abstract structural fingerprint `shape` (what a
structural or payload-defined equality would compare).  On this fragment
`===` is reflexive; `JSValFull` below adds NaN, the value on which it is
not. -/
inductive JSVal : Type where
  | undefined : JSVal
  | num (n : Int) : JSVal
  | str (s : String) : JSVal
  | bool (b : Bool) : JSVal
  | obj (id : Nat) (shape : Nat) : JSVal
deriving DecidableEq, Repr

/-- JavaScript strict equality `===`: primitives by value, objects by
reference identity only, `undefined === undefined` is true, and values of
different runtime type are never equal. -/
def strictEq : JSVal → JSVal → Bool
  | .undefined, .undefined => true
  | .num a, .num b => a == b
  | .str a, .str b => a == b
  | .bool a, .bool b => a == b
  | .obj i _, .obj j _ => i == j
  | _, _ => false

/-- Structural (payload-defined) equality on runtime values: objects compare
by their structural fingerprint, everything else as `===`.  This definition
follows the spec's words ("equality comparison deferred to the payload's own
equality") and exists only to be contrasted with what the code does. -/
def structEq : JSVal → JSVal → Bool
  | .obj _ s, .obj _ t => s == t
  | a, b => strictEq a b

/-- JavaScript string coercion as used by `msg + value`: primitives print
their value, objects print "[object Object]". -/
def jsToString : JSVal → String
  | .undefined => "undefined"
  | .num n => toString n
  | .str s => s
  | .bool b => if b then "true" else "false"
  | .obj _ _ => "[object Object]"

/-- The `Option<T>` union of src/index.ts: `OptionSome<T> | OptionNone`. -/
inductive TSOption : Type where
  | OptionSome (value : JSVal) : TSOption
  | OptionNone : TSOption
deriving DecidableEq, Repr

/-- The `Result<T, E>` union of src/index.ts: `ResultOk<T> | ResultErr<E>`. -/
inductive TSResult : Type where
  | ResultOk (value : JSVal) : TSResult
  | ResultErr (error : JSVal) : TSResult
deriving DecidableEq, Repr

namespace TSOption

/-- Getter `some`: `OptionSome.some` returns `true`, `OptionNone.some`
returns `false` (src/index.ts lines 58-60, 102-104). -/
def some : TSOption → Bool
  | .OptionSome _ => true
  | .OptionNone => false

/-- Getter `none`: `OptionSome.none` returns `false`, `OptionNone.none`
returns `true` (src/index.ts lines 61-63, 105-107). -/
def none : TSOption → Bool
  | .OptionSome _ => false
  | .OptionNone => true

/-- Reading the `value` property: `OptionSome` stores it (line 53);
`OptionNone` declares no such member, so the read yields `undefined`. -/
def valueField : TSOption → JSVal
  | .OptionSome v => v
  | .OptionNone => .undefined

/-- Method `expect(msg)`: `OptionSome` returns the stored value (lines
65-67); `OptionNone` throws `new Error(msg)` (lines 109-111). -/
def expect : TSOption → String → Except String JSVal
  | .OptionSome v, _ => .ok v
  | .OptionNone, msg => .error msg

/-- Getter `unwrap`: `OptionSome` returns the stored value (lines 69-71);
`OptionNone` throws `new Error("Tried to unwrap None")` (lines 113-115). -/
def unwrap : TSOption → Except String JSVal
  | .OptionSome v => .ok v
  | .OptionNone => .error "Tried to unwrap None"

/-- Method `unwrap_or(val)`: `OptionSome` returns the stored value ignoring
the default (lines 73-75); `OptionNone` returns the default (lines 117-119). -/
def unwrap_or : TSOption → JSVal → JSVal
  | .OptionSome v, _ => v
  | .OptionNone, d => d

/-- Method `and_then(mapper)`: `OptionSome` returns `mapper(this.value)`
(lines 80-82); `OptionNone` takes no mapper and returns `this` (lines
121-123).  The mapper is a JavaScript closure, hence lives in a monad. -/
def and_thenM {m : Type → Type} [Monad m]
    (o : TSOption) (mapper : JSVal → m TSOption) : m TSOption :=
  match o with
  | .OptionSome v => mapper v
  | .OptionNone => pure .OptionNone

/-- Method `or_else(mapper)`: `OptionSome` takes no mapper and returns
`this` (lines 84-86); `OptionNone` returns `mapper()` (lines 128-130). -/
def or_elseM {m : Type → Type} [Monad m]
    (o : TSOption) (mapper : m TSOption) : m TSOption :=
  match o with
  | .OptionSome v => pure (.OptionSome v)
  | .OptionNone => mapper

/-- Method `map(mapper)`: `OptionSome` returns
`new OptionSome(mapper(this.value))` (lines 88-90); `OptionNone` takes no
mapper and returns `this` (lines 132-134). -/
def mapM {m : Type → Type} [Monad m]
    (o : TSOption) (mapper : JSVal → m JSVal) : m TSOption :=
  match o with
  | .OptionSome v => mapper v >>= fun u => pure (.OptionSome u)
  | .OptionNone => pure .OptionNone

/-- Method `compare(other)`: `OptionSome` returns
`other.some && this.value === other.value` (lines 92-94); `OptionNone`
returns `other.none` (lines 136-138). -/
def compare (a b : TSOption) : Bool :=
  match a with
  | .OptionSome v => b.some && strictEq v b.valueField
  | .OptionNone => b.none

/-- Method `to_result(error)`: `OptionSome` returns
`new ResultOk(this.value)` ignoring any error argument (lines 96-98);
`OptionNone` returns `new ResultErr(error)` (lines 140-142). -/
def to_result : TSOption → JSVal → TSResult
  | .OptionSome v, _ => .ResultOk v
  | .OptionNone, e => .ResultErr e

end TSOption

namespace TSResult

/-- Getter `ok`: `ResultOk.ok` returns `true` (lines 213-215),
`ResultErr.ok` returns `false` (lines 274-276). -/
def ok : TSResult → Bool
  | .ResultOk _ => true
  | .ResultErr _ => false

/-- Getter `err`: `ResultOk.err` returns `false` (lines 216-218),
`ResultErr.err` returns `true` (lines 277-279). -/
def err : TSResult → Bool
  | .ResultOk _ => false
  | .ResultErr _ => true

/-- Reading the `value` property: `ResultOk` stores it (line 208);
`ResultErr` declares no such member, so the read yields `undefined`. -/
def valueField : TSResult → JSVal
  | .ResultOk v => v
  | .ResultErr _ => .undefined

/-- Reading the `error` property: `ResultErr` stores it (line 265);
`ResultOk` declares no such member, so the read yields `undefined`. -/
def errorField : TSResult → JSVal
  | .ResultOk _ => .undefined
  | .ResultErr e => e

/-- Reading the `valid` member: `ResultErr` declares a getter returning
`false` (lines 271-273); `ResultOk` declares no `valid` member at all, so
the lookup finds nothing (`Option.none`). -/
def validField : TSResult → Option Bool
  | .ResultOk _ => Option.none
  | .ResultErr _ => Option.some false

/-- Method `expect(msg)`: `ResultOk` returns the stored value (lines
220-222); `ResultErr` throws
`new Error(msg + "\nOriginal " + this.error)` (lines 281-283). -/
def expect : TSResult → String → Except String JSVal
  | .ResultOk v, _ => .ok v
  | .ResultErr e, msg => .error (msg ++ "\nOriginal " ++ jsToString e)

/-- Method `expect_err(msg)`: `ResultOk` throws `new Error(msg)` (lines
224-226); `ResultErr` returns the stored error (lines 285-287). -/
def expect_err : TSResult → String → Except String JSVal
  | .ResultOk _, msg => .error msg
  | .ResultErr e, _ => .ok e

/-- Getter `unwrap`: `ResultOk` returns the stored value (lines 228-230);
`ResultErr` throws
`new Error("Tried to unwrap Error\nOriginal " + this.error)` (lines
289-291). -/
def unwrap : TSResult → Except String JSVal
  | .ResultOk v => .ok v
  | .ResultErr e => .error ("Tried to unwrap Error\nOriginal " ++ jsToString e)

/-- Method `unwrap_or(val)`: `ResultOk` returns the stored value ignoring
the default (lines 232-234); `ResultErr` returns the default (lines
293-295). -/
def unwrap_or : TSResult → JSVal → JSVal
  | .ResultOk v, _ => v
  | .ResultErr _, d => d

/-- Method `and_then(mapper)`: `ResultOk` returns `mapper(this.value)`
(lines 239-241); `ResultErr` takes no mapper and returns `this` (lines
297-299). -/
def and_thenM {m : Type → Type} [Monad m]
    (r : TSResult) (mapper : JSVal → m TSResult) : m TSResult :=
  match r with
  | .ResultOk v => mapper v
  | .ResultErr e => pure (.ResultErr e)

/-- Method `or_else(mapper)`: `ResultOk` takes no mapper and returns `this`
(lines 243-245); `ResultErr` returns `mapper(this.error)` (lines 304-306). -/
def or_elseM {m : Type → Type} [Monad m]
    (r : TSResult) (mapper : JSVal → m TSResult) : m TSResult :=
  match r with
  | .ResultOk v => pure (.ResultOk v)
  | .ResultErr e => mapper e

/-- Method `map(func)`: `ResultOk` returns `new ResultOk(func(this.value))`
(lines 247-249); `ResultErr` takes no mapper and returns `this` (lines
308-310). -/
def mapM {m : Type → Type} [Monad m]
    (r : TSResult) (mapper : JSVal → m JSVal) : m TSResult :=
  match r with
  | .ResultOk v => mapper v >>= fun u => pure (.ResultOk u)
  | .ResultErr e => pure (.ResultErr e)

/-- Method `map_err(mapper)`: `ResultOk` takes no mapper and returns `this`
(lines 251-253); `ResultErr` returns `new ResultErr(mapper(this.error))`
(lines 312-314). -/
def map_errM {m : Type → Type} [Monad m]
    (r : TSResult) (mapper : JSVal → m JSVal) : m TSResult :=
  match r with
  | .ResultOk v => pure (.ResultOk v)
  | .ResultErr e => mapper e >>= fun u => pure (.ResultErr u)

/-- Method `compare(other)`: `ResultOk` returns
`other.ok && this.value === other.value` (lines 255-257); `ResultErr`
returns `other.err && this.error === other.error` (lines 316-318). -/
def compare (a b : TSResult) : Bool :=
  match a with
  | .ResultOk v => b.ok && strictEq v b.valueField
  | .ResultErr e => b.err && strictEq e b.errorField

/-- Getter `to_option`: `ResultOk` returns `new OptionSome(this.value)`
(lines 259-261); `ResultErr` returns `new OptionNone()` (lines 320-322). -/
def to_option : TSResult → TSOption
  | .ResultOk v => .OptionSome v
  | .ResultErr _ => .OptionNone

end TSResult

/-- Full JavaScript value domain: the values of `JSVal` together with the
IEEE-754 NaN, which `typeof` classifies as a number and on which `===` is
not reflexive. -/
inductive JSValFull : Type where
  | undefined : JSValFull
  | nan : JSValFull
  | num (n : Int) : JSValFull
  | str (s : String) : JSValFull
  | bool (b : Bool) : JSValFull
  | obj (id : Nat) (shape : Nat) : JSValFull
deriving DecidableEq, Repr

/-- JavaScript strict equality `===` on the full domain: as `strictEq`, and
additionally `NaN === NaN` is false (as is `NaN === x` for every `x`). -/
def strictEqFull : JSValFull → JSValFull → Bool
  | .undefined, .undefined => true
  | .nan, .nan => false
  | .num a, .num b => a == b
  | .str a, .str b => a == b
  | .bool a, .bool b => a == b
  | .obj i _, .obj j _ => i == j
  | _, _ => false

/-- The `Option<T>` union over the full value domain. -/
inductive TSOptionFull : Type where
  | OptionSome (value : JSValFull) : TSOptionFull
  | OptionNone : TSOptionFull
deriving DecidableEq, Repr

/-- The `Result<T, E>` union over the full value domain. -/
inductive TSResultFull : Type where
  | ResultOk (value : JSValFull) : TSResultFull
  | ResultErr (error : JSValFull) : TSResultFull
deriving DecidableEq, Repr

namespace TSOptionFull

/-- Getter `some` (src/index.ts lines 58-60, 102-104), full domain. -/
def some : TSOptionFull → Bool
  | .OptionSome _ => true
  | .OptionNone => false

/-- Getter `none` (src/index.ts lines 61-63, 105-107), full domain. -/
def none : TSOptionFull → Bool
  | .OptionSome _ => false
  | .OptionNone => true

/-- Reading the `value` property (`OptionSome` stores it, line 53;
`OptionNone` declares none, so the read yields `undefined`), full domain. -/
def valueField : TSOptionFull → JSValFull
  | .OptionSome v => v
  | .OptionNone => .undefined

/-- Method `compare(other)`: `OptionSome` returns
`other.some && this.value === other.value` (lines 92-94); `OptionNone`
returns `other.none` (lines 136-138).  Full domain. -/
def compare (a b : TSOptionFull) : Bool :=
  match a with
  | .OptionSome v => b.some && strictEqFull v b.valueField
  | .OptionNone => b.none

/-- Method `to_result(error)`: `OptionSome` returns
`new ResultOk(this.value)` ignoring any error argument (lines 96-98);
`OptionNone` returns `new ResultErr(error)` (lines 140-142).  Full domain. -/
def to_result : TSOptionFull → JSValFull → TSResultFull
  | .OptionSome v, _ => .ResultOk v
  | .OptionNone, e => .ResultErr e

end TSOptionFull

namespace TSResultFull

/-- Getter `to_option`: `ResultOk` returns `new OptionSome(this.value)`
(lines 259-261); `ResultErr` returns `new OptionNone()` (lines 320-322).
Full domain. -/
def to_option : TSResultFull → TSOptionFull
  | .ResultOk v => .OptionSome v
  | .ResultErr _ => .OptionNone

end TSResultFull

/-- A strict-equality helper: `===` is reflexive on the NaN-free fragment
(IEEE NaN, the one non-reflexive case in JavaScript, lives in `JSValFull`). -/
theorem strictEq_refl (v : JSVal) : strictEq v v = true := by
  cases v <;> simp [strictEq]

/-- A strict-equality helper: `===` is symmetric. -/
theorem strictEq_symm (a b : JSVal) : strictEq a b = strictEq b a := by
  cases a <;> cases b <;> simp [strictEq, eq_comm]

/-- An `Except` helper: the computation produced a value, not an error. -/
def exOk {α : Type} : Except String α → Bool
  | .ok _ => true
  | .error _ => false

/-- An `Except` helper: binding a successful computation with a pure
continuation stays successful. -/
theorem exOk_bind_pure {α β : Type} (x : Except String α) (k : α → β)
    (h : exOk x = true) : exOk (x >>= fun a => pure (k a)) = true := by
  cases x with
  | ok a => rfl
  | error s => simp [exOk] at h

/-- C1: every combinator call on its inactive variant — `and_then` or `map`
on `OptionNone`, `and_then` or `map` on `ResultErr`, `map_err` on
`ResultOk`, `or_else` on `OptionSome` or `ResultOk` — never invokes the
supplied closure and returns the receiving instance unchanged.  The closure
is an arbitrary stateful computation; the output state equals the input
state, so none of the closure's effects ran. -/
theorem inactive_variant_never_invokes_mapper (σ : Type)
    (f : JSVal → StateM σ TSOption) (g : JSVal → StateM σ JSVal)
    (oe : StateM σ TSOption)
    (p : JSVal → StateM σ TSResult) (q u : JSVal → StateM σ JSVal)
    (s : σ) (v e : JSVal) :
    (TSOption.OptionNone.and_thenM f).run s = (TSOption.OptionNone, s) ∧
    (TSOption.OptionNone.mapM g).run s = (TSOption.OptionNone, s) ∧
    ((TSOption.OptionSome v).or_elseM oe).run s = (TSOption.OptionSome v, s) ∧
    ((TSResult.ResultErr e).and_thenM p).run s = (TSResult.ResultErr e, s) ∧
    ((TSResult.ResultErr e).mapM q).run s = (TSResult.ResultErr e, s) ∧
    ((TSResult.ResultOk v).map_errM u).run s = (TSResult.ResultOk v, s) ∧
    ((TSResult.ResultOk v).or_elseM p).run s = (TSResult.ResultOk v, s) :=
  ⟨rfl, rfl, rfl, rfl, rfl, rfl, rfl⟩

/-- C2 counterexample: the round trip fails at `v = NaN`.  Tracing the
source, `to_result()` yields `ResultOk(NaN)`, `to_option` yields
`new OptionSome(NaN)`, and `compare` evaluates
`other.some && NaN === NaN`, which is false, so the claim's universally
quantified equality does not hold on the program. -/
theorem to_result_roundtrip_cex :
    ((TSOptionFull.OptionSome JSValFull.nan).to_result
      (JSValFull.num 0)).to_option.compare
      (TSOptionFull.OptionSome JSValFull.nan) = false := rfl

/-- C2 amended: for every value `v` that is strict-equal to itself (every
JavaScript value except NaN) and every error `e`, converting `OptionSome v`
to a result with error `e` and back yields an option that compares equal to
`OptionSome v`; and `OptionNone.to_result e` is `ResultErr e` for every
`e`. -/
theorem to_result_roundtrip_amended (v e : JSValFull)
    (hv : strictEqFull v v = true) :
    ((TSOptionFull.OptionSome v).to_result e).to_option.compare
      (TSOptionFull.OptionSome v) = true ∧
    TSOptionFull.OptionNone.to_result e = TSResultFull.ResultErr e := by
  constructor
  · simp [TSOptionFull.to_result, TSResultFull.to_option,
      TSOptionFull.compare, TSOptionFull.some, TSOptionFull.valueField, hv]
  · rfl

/-- C2 witness: the amended round trip at a concrete self-equal value and
error. -/
theorem to_result_roundtrip_amended_witness :
    ((TSOptionFull.OptionSome (JSValFull.num 42)).to_result
      (JSValFull.str "boom")).to_option.compare
      (TSOptionFull.OptionSome (JSValFull.num 42)) = true ∧
    TSOptionFull.OptionNone.to_result (JSValFull.str "boom")
      = TSResultFull.ResultErr (JSValFull.str "boom") :=
  to_result_roundtrip_amended (JSValFull.num 42) (JSValFull.str "boom")
    (by decide)

/-- C3: the discriminant booleans are exhaustive and mutually exclusive —
exactly one of `some` / `none` is true on every option, and exactly one of
`ok` / `err` is true on every result.  Since the property is quantified over
all values of the union types and every constructor and combinator produces
such a value, it holds after every sequence of applications. -/
theorem discriminants_exclusive :
    (∀ o : TSOption,
      (o.some = true ∧ o.none = false) ∨ (o.some = false ∧ o.none = true)) ∧
    (∀ r : TSResult,
      (r.ok = true ∧ r.err = false) ∨ (r.ok = false ∧ r.err = true)) := by
  constructor
  · intro o
    cases o
    · exact Or.inl ⟨rfl, rfl⟩
    · exact Or.inr ⟨rfl, rfl⟩
  · intro r
    cases r
    · exact Or.inl ⟨rfl, rfl⟩
    · exact Or.inr ⟨rfl, rfl⟩

/-- C4: `expect m` returns the payload on `OptionSome` and `ResultOk` and
fails on `OptionNone` and `ResultErr`; the failure detail is exactly `m` on
`OptionNone` (so `m` is recoverable), and on `ResultErr` it is `m` followed
by the stringified error.  `unwrap` behaves the same with a fixed default
message, which on `ResultErr` embeds the stringified error. -/
theorem expect_unwrap_behaviour (v e : JSVal) (m : String) :
    (TSOption.OptionSome v).expect m = Except.ok v ∧
    TSOption.OptionNone.expect m = Except.error m ∧
    (TSOption.OptionSome v).unwrap = Except.ok v ∧
    TSOption.OptionNone.unwrap = Except.error "Tried to unwrap None" ∧
    (TSResult.ResultOk v).expect m = Except.ok v ∧
    (TSResult.ResultErr e).expect m
      = Except.error (m ++ "\nOriginal " ++ jsToString e) ∧
    (TSResult.ResultOk v).unwrap = Except.ok v ∧
    (TSResult.ResultErr e).unwrap
      = Except.error ("Tried to unwrap Error\nOriginal " ++ jsToString e) :=
  ⟨rfl, rfl, rfl, rfl, rfl, rfl, rfl, rfl⟩

/-- C5: `compare` is reflexive (hence true on same-variant pairs with equal
payloads, payload equality being `===` on the modelled values) and
symmetric, and every cross-variant comparison is false in both directions,
for both families. -/
theorem compare_refl_symm_cross :
    (∀ o : TSOption, o.compare o = true) ∧
    (∀ a b : TSOption, a.compare b = b.compare a) ∧
    (∀ r : TSResult, r.compare r = true) ∧
    (∀ a b : TSResult, a.compare b = b.compare a) ∧
    (∀ v e : JSVal,
      (TSOption.OptionSome v).compare TSOption.OptionNone = false ∧
      TSOption.OptionNone.compare (TSOption.OptionSome v) = false ∧
      (TSResult.ResultOk v).compare (TSResult.ResultErr e) = false ∧
      (TSResult.ResultErr e).compare (TSResult.ResultOk v) = false) := by
  refine ⟨?_, ?_, ?_, ?_, ?_⟩
  · intro o
    cases o <;> simp [TSOption.compare, TSOption.some, TSOption.none,
      TSOption.valueField, strictEq_refl]
  · intro a b
    cases a <;> cases b <;> simp [TSOption.compare, TSOption.some,
      TSOption.none, TSOption.valueField, strictEq_symm]
  · intro r
    cases r <;> simp [TSResult.compare, TSResult.ok, TSResult.err,
      TSResult.valueField, TSResult.errorField, strictEq_refl]
  · intro a b
    cases a <;> cases b <;> simp [TSResult.compare, TSResult.ok,
      TSResult.err, TSResult.valueField, TSResult.errorField, strictEq_symm]
  · intro v e
    exact ⟨rfl, rfl, rfl, rfl⟩

/-- C6: on the absent variant, every value access the API offers surfaces a
failure: `OptionNone` declares no `value` member, and its value accessors
`expect` and `unwrap` both fail, carrying the caller's or the default
message. -/
theorem absent_value_access_fails (m : String) :
    TSOption.OptionNone.expect m = Except.error m ∧
    TSOption.OptionNone.unwrap = Except.error "Tried to unwrap None" :=
  ⟨rfl, rfl⟩

/-- C7 counterexample: `(ResultOk NaN).to_option` does not compare equal to
`OptionSome NaN` — `to_option` yields `new OptionSome(NaN)` and `compare`
evaluates `other.some && NaN === NaN`, which is false, so the claim's first
conjunct fails on the program at `v = NaN`. -/
theorem to_option_discards_error_cex :
    (TSResultFull.ResultOk JSValFull.nan).to_option.compare
      (TSOptionFull.OptionSome JSValFull.nan) = false := rfl

/-- C7 amended: for every value `v` that is strict-equal to itself (every
JavaScript value except NaN) and every error `e`, `(ResultOk v).to_option`
compares equal to `OptionSome v`, and `(ResultErr e).to_option` is absent
with the error discarded (`none` is true on it) for every `e`. -/
theorem to_option_discards_error_amended (v e : JSValFull)
    (hv : strictEqFull v v = true) :
    (TSResultFull.ResultOk v).to_option.compare
      (TSOptionFull.OptionSome v) = true ∧
    (TSResultFull.ResultErr e).to_option.none = true := by
  constructor
  · simp [TSResultFull.to_option, TSOptionFull.compare, TSOptionFull.some,
      TSOptionFull.valueField, hv]
  · rfl

/-- C7 witness: the amended conversion facts at a concrete self-equal value
and error. -/
theorem to_option_discards_error_amended_witness :
    (TSResultFull.ResultOk (JSValFull.num 7)).to_option.compare
      (TSOptionFull.OptionSome (JSValFull.num 7)) = true ∧
    (TSResultFull.ResultErr (JSValFull.str "oops")).to_option.none = true :=
  to_option_discards_error_amended (JSValFull.num 7) (JSValFull.str "oops")
    (by decide)

/-- C8: with mappers that always return a value (never throw), the
combinators `and_then`, `or_else`, `map` and `map_err` return a value on
every variant of both families, and `compare`, `to_result` and `to_option`
are total over the discriminant: on every variant they produce a boolean,
respectively land in one of the two variants. -/
theorem total_mappers_never_throw
    (f : JSVal → Except String TSOption) (g : JSVal → Except String JSVal)
    (oe : Except String TSOption)
    (p : JSVal → Except String TSResult) (q u : JSVal → Except String JSVal)
    (hf : ∀ v, exOk (f v) = true) (hg : ∀ v, exOk (g v) = true)
    (hoe : exOk oe = true)
    (hp : ∀ v, exOk (p v) = true) (hq : ∀ v, exOk (q v) = true)
    (hu : ∀ v, exOk (u v) = true) :
    (∀ o : TSOption, exOk (o.and_thenM f) = true ∧ exOk (o.mapM g) = true ∧
      exOk (o.or_elseM oe) = true) ∧
    (∀ r : TSResult, exOk (r.and_thenM p) = true ∧
      exOk (r.or_elseM p) = true ∧ exOk (r.mapM q) = true ∧
      exOk (r.map_errM u) = true) ∧
    (∀ a b : TSOption, a.compare b = true ∨ a.compare b = false) ∧
    (∀ a b : TSResult, a.compare b = true ∨ a.compare b = false) ∧
    (∀ (o : TSOption) (e : JSVal),
      (o.to_result e).ok = true ∨ (o.to_result e).err = true) ∧
    (∀ r : TSResult, r.to_option.some = true ∨ r.to_option.none = true) := by
  refine ⟨?_, ?_, ?_, ?_, ?_, ?_⟩
  · intro o
    cases o with
    | OptionSome v =>
      exact ⟨hf v, exOk_bind_pure (g v) TSOption.OptionSome (hg v), rfl⟩
    | OptionNone => exact ⟨rfl, rfl, hoe⟩
  · intro r
    cases r with
    | ResultOk v =>
      exact ⟨hp v, rfl, exOk_bind_pure (q v) TSResult.ResultOk (hq v), rfl⟩
    | ResultErr e =>
      exact ⟨rfl, hp e, rfl, exOk_bind_pure (u e) TSResult.ResultErr (hu e)⟩
  · intro a b
    cases h : a.compare b
    · exact Or.inr rfl
    · exact Or.inl rfl
  · intro a b
    cases h : a.compare b
    · exact Or.inr rfl
    · exact Or.inl rfl
  · intro o e
    cases o
    · exact Or.inl rfl
    · exact Or.inr rfl
  · intro r
    cases r
    · exact Or.inl rfl
    · exact Or.inr rfl

/-- C8 witness: the totality theorem applied to concrete non-throwing
mappers at a concrete container. -/
theorem total_mappers_never_throw_witness :
    exOk ((TSOption.OptionSome (JSVal.num 42)).mapM
      (fun v => (Except.ok v : Except String JSVal))) = true :=
  ((total_mappers_never_throw
    (fun v => Except.ok (TSOption.OptionSome v))
    (fun v => Except.ok v)
    (Except.ok TSOption.OptionNone)
    (fun v => Except.ok (TSResult.ResultOk v))
    (fun v => Except.ok v)
    (fun v => Except.ok v)
    (fun _ => rfl) (fun _ => rfl) rfl (fun _ => rfl) (fun _ => rfl)
    (fun _ => rfl)).1 (TSOption.OptionSome (JSVal.num 42))).2.1

/-- C9: payload comparison inside `compare` is reference identity, not a
payload-defined structural equality: two containers of the same variant
holding distinct objects with the same structural fingerprint compare false,
even though structural equality holds on the payloads — so the payload's own
equality is never what `compare` consults. -/
theorem compare_uses_reference_identity (i j s : Nat) (hij : i ≠ j) :
    structEq (JSVal.obj i s) (JSVal.obj j s) = true ∧
    (TSOption.OptionSome (JSVal.obj i s)).compare
      (TSOption.OptionSome (JSVal.obj j s)) = false ∧
    (TSResult.ResultOk (JSVal.obj i s)).compare
      (TSResult.ResultOk (JSVal.obj j s)) = false ∧
    (TSResult.ResultErr (JSVal.obj i s)).compare
      (TSResult.ResultErr (JSVal.obj j s)) = false := by
  refine ⟨by simp [structEq], ?_, ?_, ?_⟩ <;>
    simp [TSOption.compare, TSResult.compare, TSOption.some, TSResult.ok,
      TSResult.err, TSOption.valueField, TSResult.valueField,
      TSResult.errorField, strictEq, hij]

/-- C9 witness: two structurally equal objects with distinct identities. -/
theorem compare_uses_reference_identity_witness :
    structEq (JSVal.obj 0 7) (JSVal.obj 1 7) = true ∧
    (TSOption.OptionSome (JSVal.obj 0 7)).compare
      (TSOption.OptionSome (JSVal.obj 1 7)) = false ∧
    (TSResult.ResultOk (JSVal.obj 0 7)).compare
      (TSResult.ResultOk (JSVal.obj 1 7)) = false ∧
    (TSResult.ResultErr (JSVal.obj 0 7)).compare
      (TSResult.ResultErr (JSVal.obj 1 7)) = false :=
  compare_uses_reference_identity 0 1 7 (by decide)

/-- C10: the `ResultErr` class declares a public getter `valid` that always
returns `false`, while `ResultOk` declares no `valid` member at all. -/
theorem valid_getter_asymmetry (v e : JSVal) :
    (TSResult.ResultErr e).validField = Option.some false ∧
    (TSResult.ResultOk v).validField = Option.none :=
  ⟨rfl, rfl⟩
